import Mathlib

/-!
Shallow embedding of the two Supabase edge functions of the Pro2602
repository:

* the grid-metrics extractor (`src/unnamed/part_000`), which scrapes
  generation (MW), frequency (Hz) and a load-trend percentage out of the
  power.gov.ng HTML through a chain of fallback pattern matches, derives a
  qualitative grid status from the frequency, and inserts one row;
* the news extractor (`src/supabase/functions/fetch-nerc-news/index.ts`),
  which scrapes up to ten candidate article titles, normalizes,
  deduplicates and classifies them, and inserts up to five rows.

JavaScript numbers are modelled as exact rationals; `NaN` is modelled as
`Option.none` in `Option ℚ` (the only NaN source here is `parseFloat` on a
digit-free token, and NaN is falsy in every guard of the code, like `0`).
A nullable numeric variable (`number | null`) is `Option (Option ℚ)`:
the outer `none` is `null`, `some none` is NaN, `some (some v)` a value.
Regex matching itself is not re-implemented: an input document is
represented by the match results the source's fixed patterns produce on
it (capture-group strings in document order), and everything the code
does *after* matching — numeric parsing, comma stripping, truthiness
guards, the fallback cascade, classification, normalization,
deduplication, truncation, response envelopes — is embedded faithfully.
-/

/-- A JavaScript `number | null` variable: `none` = `null`,
`some none` = NaN, `some (some v)` = the numeric value `v`. -/
abbrev JsVal := Option (Option ℚ)

/-- JavaScript truthiness of a `number | null` value:
`null`, `NaN` and `0` are falsy, every other number truthy. -/
def jsTruthy : JsVal → Bool
  | some (some v) => !decide (v = 0)
  | _ => false

/-- Negation of `jsTruthy`; models the `!x` guards of the fallback chain. -/
def jsFalsy (x : JsVal) : Bool := !jsTruthy x

/-- JavaScript `x > c` on a possibly-NaN number (`NaN > c` is false). -/
def jsGt (x : Option ℚ) (c : ℚ) : Bool :=
  match x with
  | some v => decide (c < v)
  | none => false

/-- JavaScript `x < c` on a possibly-NaN number (`NaN < c` is false). -/
def jsLt (x : Option ℚ) (c : ℚ) : Bool :=
  match x with
  | some v => decide (v < c)
  | none => false

/-- Numeric value of a digit list, most significant first. -/
def digitsToNat (l : List Char) : Nat :=
  l.foldl (fun n c => 10 * n + (c.toNat - 48)) 0

/-- Whitespace characters recognized by the embedding (the forms that can
occur in the scraped text; JavaScript `\s` also covers rarer forms). -/
def isWs (c : Char) : Bool :=
  c = ' ' || c = '\t' || c = '\n' || c = '\r' || c = '\x0c' || c = '\x0b'

/-- JavaScript `parseFloat`, restricted to the token shapes the source's
patterns can capture (no exponent notation, which `[0-9,]+\.?\d*` cannot
produce): skip leading whitespace, optional sign, integer digits,
optional `.` plus fraction digits; everything after the numeric prefix is
ignored; `none` (NaN) when no digit was found. -/
def parseFloatQ (s : String) : Option ℚ :=
  let l := s.data.dropWhile isWs
  let sign : Bool × List Char :=
    match l with
    | '-' :: rest => (true, rest)
    | '+' :: rest => (false, rest)
    | _ => (false, l)
  let intDigits := sign.2.takeWhile Char.isDigit
  let afterInt := sign.2.dropWhile Char.isDigit
  let fracDigits :=
    match afterInt with
    | '.' :: rest => rest.takeWhile Char.isDigit
    | _ => []
  if intDigits.isEmpty && fracDigits.isEmpty then none
  else
    -- the exact value i + f/10^k, built as one fraction
    let mag : Int := digitsToNat intDigits * 10 ^ fracDigits.length +
      digitsToNat fracDigits
    some (mkRat (if sign.1 then -mag else mag) (10 ^ fracDigits.length))

/-- Models `s.replace(/,/g, '')`: drop every comma. -/
def stripCommas (s : String) : String :=
  String.mk (s.data.filter (fun c => c ≠ ','))

/-- Core of `removeFirstMW`: delete the first (case-insensitive)
occurrence of the two-character substring `MW`. -/
def removeMWAux : List Char → List Char
  | [] => []
  | [c] => [c]
  | c1 :: c2 :: rest =>
    if (c1 = 'M' || c1 = 'm') && (c2 = 'W' || c2 = 'w') then rest
    else c1 :: removeMWAux (c2 :: rest)

/-- Models `s.replace(/MW/i, '')`: remove the first case-insensitive `MW`. -/
def removeFirstMW (s : String) : String :=
  String.mk (removeMWAux s.data)

/-- Numeric parse applied to a generation capture:
`parseFloat(capture.replace(/,/g, ''))`. -/
def parseNumToken (s : String) : Option ℚ :=
  parseFloatQ (stripCommas s)

/-- Value the MW-scan loop computes for one full match `t` of
`([0-9,]+\.?\d*)\s*MW`: `parseFloat(t.replace(/,/g,'').replace(/MW/i,''))`. -/
def mwValue (t : String) : Option ℚ :=
  parseFloatQ (removeFirstMW (stripCommas t))

/-- The loop's acceptance test `value > 2000 && value < 10000`. -/
def mwBand (t : String) : Bool :=
  jsGt (mwValue t) 2000 && jsLt (mwValue t) 10000

/-- The fallback MW scan (`part_000` lines 78–90): walk the global matches
of `([0-9,]+\.?\d*)\s*MW` in document order and take the first whose
parsed value passes the band test, breaking out of the loop. -/
def scanMw : List String → Option ℚ
  | [] => none
  | t :: rest => if mwBand t then mwValue t else scanMw rest

/-- Match results of the grid-metrics patterns on one fetched document.
Each field holds the capture groups of the *first* match of the
corresponding pattern of `src/unnamed/part_000` (all of them are used via
non-global `String.match`, which yields the first match), except
`mwMatches`, which holds every full match of the global pattern
`([0-9,]+\.?\d*)\s*MW` in document order (`[]` when `match` returns null). -/
structure GridHtml where
  /-- Captures (generation, frequency) of the `Grid @ …` card pattern, line 39. -/
  gridCardMatch : Option (String × String)
  /-- Captures of the alternate tag-delimited pattern, line 50. -/
  altMatch : Option (String × String)
  /-- Capture of `Generation[:\s]*([0-9,]+\.?\d*)\s*MW`, line 61. -/
  genMatch : Option String
  /-- Capture of `Frequency[:\s]*([0-9]+\.?\d*)\s*Hz`, line 70. -/
  freqMatch : Option String
  /-- Full matches of the global MW pattern, line 79. -/
  mwMatches : List String
  /-- Capture of `([0-9]+\.[0-9]+)\s*Hz`, line 94. -/
  hzMatch : Option String
  /-- Capture of `\|\s*([\-\+]?\d+\.?\d*)\s*%`, line 102. -/
  trendMatch : Option String
deriving DecidableEq

/-- The row the grid-metrics function inserts into `grid_data`
(lines 126–134; `observedAt` is assigned by the datastore). -/
structure GridSample where
  generation_mw : JsVal
  frequency : JsVal
  load_percent : JsVal
  status : String
  source : String
deriving DecidableEq

/-- Status derivation from frequency (`part_000` lines 108–117): the outer
`if (frequency)` tests JavaScript truthiness, so `null`, NaN and `0` all
leave the initial `status = "stable"` in place. -/
def deriveStatus (frequency : JsVal) : String :=
  if jsTruthy frequency then
    match frequency with
    | some (some f) =>
      if 49.5 ≤ f ∧ f ≤ 50.5 then "stable"
      else if 49 ≤ f ∧ f ≤ 51 then "stressed"
      else "critical"
    | _ => "stable"
  else "stable"

/-- Tier 1 (lines 42–46): the `Grid @` card pattern assigns both fields
when it matches; generation strips commas, frequency does not. -/
def tier1G (h : GridHtml) : JsVal × JsVal :=
  match h.gridCardMatch with
  | some (c1, c2) => (some (parseNumToken c1), some (parseFloatQ c2))
  | none => (none, none)

/-- Tier 2 (lines 49–57): run only when `!generationMw || !frequency`;
the alternate pattern, when it matches, overwrites both fields. -/
def tier2G (h : GridHtml) (g f : JsVal) : JsVal × JsVal :=
  if jsFalsy g || jsFalsy f then
    match h.altMatch with
    | some (c1, c2) => (some (parseNumToken c1), some (parseFloatQ c2))
    | none => (g, f)
  else (g, f)

/-- Tier 3 for generation (lines 60–66). -/
def tier3Gen (h : GridHtml) (g : JsVal) : JsVal :=
  if jsFalsy g then
    match h.genMatch with
    | some c => some (parseNumToken c)
    | none => g
  else g

/-- Tier 3 for frequency (lines 69–75). -/
def tier3Freq (h : GridHtml) (f : JsVal) : JsVal :=
  if jsFalsy f then
    match h.freqMatch with
    | some c => some (parseFloatQ c)
    | none => f
  else f

/-- Tier 4 for generation (lines 78–90): the banded MW scan; assigns only
when the loop found an in-band value. -/
def tier4Gen (h : GridHtml) (g : JsVal) : JsVal :=
  if jsFalsy g then
    match scanMw h.mwMatches with
    | some v => some (some v)
    | none => g
  else g

/-- Tier 4 for frequency (lines 93–99): first `<decimal> Hz` match. -/
def tier4Freq (h : GridHtml) (f : JsVal) : JsVal :=
  if jsFalsy f then
    match h.hzMatch with
    | some c => some (parseFloatQ c)
    | none => f
  else f

/-- The whole extraction of `src/unnamed/part_000` lines 32–134: the
cascade of fallback strategies, the trend percentage, the status
derivation, and assembly of the inserted row. -/
def extractGrid (h : GridHtml) : GridSample :=
  let p1 := tier1G h
  let p2 := tier2G h p1.1 p1.2
  let generationMw := tier4Gen h (tier3Gen h p2.1)
  let frequency := tier4Freq h (tier3Freq h p2.2)
  let loadPercent : JsVal :=
    match h.trendMatch with
    | some c => some (parseFloatQ c)
    | none => none
  { generation_mw := generationMw
    frequency := frequency
    load_percent := loadPercent
    status := deriveStatus frequency
    source := "power.gov.ng" }

/-- The JSON envelope plus HTTP status of the grid-metrics handler. -/
structure GridResponse where
  status : Nat
  success : Bool
  data : Option GridSample
  error : Option String
deriving DecidableEq

/-- The grid-metrics handler (`part_000` lines 13–170) as a function of
the fetch outcome, the pattern-match results of the fetched document, and
the outcome of the single `grid_data` insert.  Returns the response and
the number of rows persisted.  A failed fetch throws (line 26) into the
catch handler, which answers HTTP 500 with `success:false` (lines
156–170); an insert error is re-thrown (line 140) into the same handler;
otherwise the success envelope is returned with HTTP 200 (lines 145–155). -/
def handleGrid (fetchOk : Bool) (h : GridHtml) (insertOk : Bool) :
    GridResponse × Nat :=
  if !fetchOk then
    ({ status := 500, success := false, data := none
       error := some ("Failed to fetch power.gov.ng") }, 0)
  else if !insertOk then
    ({ status := 500, success := false, data := none
       error := some ("Supabase insert error") }, 0)
  else
    ({ status := 200, success := true, data := some (extractGrid h)
       error := none }, 1)

/-! ## News extractor (`src/supabase/functions/fetch-nerc-news/index.ts`) -/

/-- One `<article>` block of the news page, represented by the match
results the source's patterns produce on it: `titleMatch` is the capture
of the title-anchor pattern pair of line 47–48 (first alternative that
matched), and `pubDate` is the outcome of lines 52–73 — the ISO string of
the first date-shaped substring when one matched *and* `new Date` parsed
it, else `none` (calendar/locale date parsing itself is environment
behavior and is represented by its result). -/
structure Article where
  titleMatch : Option String
  pubDate : Option String
deriving DecidableEq

/-- Match results of the news patterns on one fetched document:
the first ten-odd `<article>` blocks in document order, and the capture
groups of the global fallback heading-anchor pattern (line 95) in
document order. -/
structure NewsHtml where
  articles : List Article
  fallbackTitles : List String
deriving DecidableEq

/-- One row of the `grid_news` table as built by the extractor. -/
structure NewsRecord where
  title : String
  description : String
  type : String
  region : Option String
  published_at : Option String
deriving DecidableEq

/-- Whitespace-run collapsing: `prevWs` records whether the previous
character was part of a whitespace run already emitted as one space. -/
def collapseWsGo : Bool → List Char → List Char
  | _, [] => []
  | prevWs, c :: rest =>
    if isWs c then
      if prevWs then collapseWsGo true rest
      else ' ' :: collapseWsGo true rest
    else c :: collapseWsGo false rest

/-- JavaScript `String.prototype.trim`, on the character list. -/
def jsTrim (l : List Char) : List Char :=
  ((l.dropWhile isWs).reverse.dropWhile isWs).reverse

/-- Title normalization of lines 58 and 99:
`raw.trim().replace(/\s+/g, ' ')`. -/
def normalizeTitle (s : String) : String :=
  String.mk (collapseWsGo false (jsTrim s.data))

/-- Models `s.substring(0, n)`. -/
def jsSubstr (s : String) (n : Nat) : String :=
  String.mk (s.data.take n)

/-- Holds when `pat` is a leading segment of `l`. -/
def headMatch : List Char → List Char → Bool
  | [], _ => true
  | _ :: _, [] => false
  | c :: cs, d :: ds => c == d && headMatch cs ds

/-- Holds when `pat` occurs somewhere inside `l`. -/
def containsAux (pat : List Char) : List Char → Bool
  | [] => headMatch pat []
  | c :: rest => headMatch pat (c :: rest) || containsAux pat rest

/-- JavaScript `s.includes(pat)`. -/
def strContains (s pat : String) : Bool :=
  containsAux pat.data s.data

/-- JavaScript `s.toLowerCase()`, character by character. -/
def jsToLower (s : String) : String :=
  String.mk (s.data.map Char.toLower)

/-- Keyword classification of lines 75–85 / 101–111: alert keywords take
precedence over update keywords, `info` is the fallback. -/
def classifyType (title : String) : String :=
  let lower := jsToLower title
  let isAlert := strContains lower ("warning") || strContains lower ("urgent") ||
    strContains lower ("notice")
  let isUpdate := strContains lower ("update") || strContains lower ("new") ||
    strContains lower ("announce")
  if isAlert then "alert" else if isUpdate then "update" else "info"

/-- Acceptance test of lines 60 and 100:
`title && title.length > 10 && !newsItems.some(item => item.title === title)`,
where `title` is the normalized (pre-truncation) candidate and the stored
titles are the already-pushed (truncated) ones. -/
def acceptTitle (items : List NewsRecord) (title : String) : Bool :=
  !(title == "") && decide (10 < title.length) &&
    !(items.any (fun it => it.title == title))

/-- The record pushed for an accepted normalized title (lines 82–88 and
108–114): title truncated to 200 characters, description synthesized from
the first 100 characters of the pre-truncation title, type classified
from the pre-truncation title, region always null. -/
def mkNewsItem (title : String) (pub : Option String) : NewsRecord :=
  { title := jsSubstr title 200
    description :=
      "Latest update from NERC regarding " ++ jsSubstr title 100 ++ "..."
    type := classifyType title
    region := none
    published_at := pub }

/-- One iteration of the primary-tier loop (lines 45–91) on one article
block. -/
def tier1Step (items : List NewsRecord) (a : Article) : List NewsRecord :=
  match a.titleMatch with
  | none => items
  | some raw =>
    let title := normalizeTitle raw
    if acceptTitle items title then items ++ [mkNewsItem title a.pubDate]
    else items

/-- The primary tier: `for (const article of articles.slice(0, 10))`. -/
def tier1Items (arts : List Article) : List NewsRecord :=
  (arts.take 10).foldl tier1Step []

/-- One iteration of the fallback-tier `while` loop (lines 94–117): the
loop condition also requires `newsItems.length < 10` before processing
the next match; dates are not extracted at this tier. -/
def tier2Step (items : List NewsRecord) (raw : String) : List NewsRecord :=
  if items.length < 10 then
    let title := normalizeTitle raw
    if acceptTitle items title then items ++ [mkNewsItem title none]
    else items
  else items

/-- Items after both extraction tiers: the fallback scan runs only when
the primary tier produced nothing (line 94). -/
def extractedItems (h : NewsHtml) : List NewsRecord :=
  let items := tier1Items h.articles
  if items.length = 0 then h.fallbackTitles.foldl tier2Step items
  else items

/-- The synthetic placeholder record (lines 122–128). -/
def placeholderItem : NewsRecord :=
  { title := "NERC Updates Available"
    description :=
      "Check nerc.gov.ng for the latest regulatory updates and announcements."
    type := "info"
    region := none
    published_at := none }

/-- The final in-memory list (lines 119–129): the placeholder is appended
only when both tiers produced nothing. -/
def newsItemsOf (h : NewsHtml) : List NewsRecord :=
  let items := extractedItems h
  if items.length = 0 then items ++ [placeholderItem] else items

/-- Models `newsItems.slice(0, 5)` (line 139): the list handed to the insert loop
and echoed in the response. -/
def itemsToInsert (h : NewsHtml) : List NewsRecord :=
  (newsItemsOf h).take 5

/-- The JSON envelope plus HTTP status of the news handler. -/
structure NewsResponse where
  status : Nat
  success : Bool
  message : Option String
  error : Option String
  items : List NewsRecord
deriving DecidableEq

/-- The news handler (lines 13–168) as a function of the fetch outcome,
the pattern-match results of the fetched document, and the per-index
outcome of each `grid_news` insert.  Returns the response and the list of
rows actually persisted.  A failed fetch throws (line 25) into the catch
handler (HTTP 500, `success:false`); the insert loop (lines 141–149) logs
and swallows a failed insert and carries on; the success envelope (lines
151–158) carries no explicit status, so the platform default 200 applies,
regardless of insert outcomes. -/
def handleNews (fetchOk : Bool) (h : NewsHtml) (insertOk : Nat → Bool) :
    NewsResponse × List NewsRecord :=
  if !fetchOk then
    ({ status := 500, success := false, message := none
       error := some ("Failed to fetch NERC page"), items := [] }, [])
  else
    let toIns := itemsToInsert h
    ({ status := 200, success := true
       message := some ("Fetched " ++ toString toIns.length ++ " news items")
       error := none, items := toIns },
     (toIns.enum.filter (fun p => insertOk p.1)).map Prod.snd)

/-! ## Helper lemmas -/

/-- On a truthy frequency value the status derivation is the bare
three-way comparison chain. -/
theorem deriveStatus_of_ne_zero (f : ℚ) (hf : f ≠ 0) :
    deriveStatus (some (some f)) =
      if 49.5 ≤ f ∧ f ≤ 50.5 then "stable"
      else if 49 ≤ f ∧ f ≤ 51 then "stressed"
      else "critical" := by
  simp [deriveStatus, jsTruthy, hf]

/-- The derived status is always one of the three enum values. -/
theorem deriveStatus_mem (v : JsVal) :
    deriveStatus v = "stable" ∨ deriveStatus v = "stressed" ∨
      deriveStatus v = "critical" := by
  unfold deriveStatus
  split
  · split
    · split_ifs <;> simp
    · simp
  · simp

/-! ## C9 -/

/-- C9: numeric parsing strips grouping commas before conversion, so
parsing `"4,876.45"` and `"4876.45"` both yield 4876.45 (= 97529/20). -/
theorem c9_comma_parse :
    parseNumToken ("4,876.45") = some ((487645 : ℚ) / 100) ∧
    parseNumToken ("4876.45") = some ((487645 : ℚ) / 100) ∧
    parseNumToken ("4,876.45") = parseNumToken ("4876.45") := by
  have hv : (mkRat 487645 100 : ℚ) = (487645 : ℚ) / 100 := by
    rw [Rat.mkRat_eq_div]; norm_num
  have h1 : parseNumToken ("4,876.45") = some (mkRat 487645 100) := by decide
  have h2 : parseNumToken ("4876.45") = some (mkRat 487645 100) := by decide
  exact ⟨by rw [h1, hv], by rw [h2, hv], by rw [h1, h2]⟩

/-! ## C1 -/

/-- C1 fails as stated: an extracted frequency of exactly 0 lies outside
[49.0, 51.0], so the claim demands status `critical`, but the truthiness
guard `if (frequency)` skips the classification and the status stays
`stable`. -/
theorem c1_counterexample :
    deriveStatus (some (some (0 : ℚ))) = "stable" ∧ (0 : ℚ) < 49 ∧
      ("stable" : String) ≠ "critical" := by
  refine ⟨rfl, by norm_num, by decide⟩

/-- C1 amended: for every extracted *nonzero* frequency `f` the status is
`stable` iff 49.5 ≤ f ≤ 50.5, `stressed` iff f ∈ [49,49.5) ∪ (50.5,51],
and `critical` iff f lies outside [49,51]; when the frequency is null —
or NaN, or exactly 0, which the truthiness guard treats like null — the
status defaults to `stable`; the persisted status field is always one of
the three enum values, never null. -/
theorem c1_status_amended :
    (∀ f : ℚ, f ≠ 0 →
      ((deriveStatus (some (some f)) = "stable" ↔ 49.5 ≤ f ∧ f ≤ 50.5) ∧
       (deriveStatus (some (some f)) = "stressed" ↔
         (49 ≤ f ∧ f < 49.5) ∨ (50.5 < f ∧ f ≤ 51)) ∧
       (deriveStatus (some (some f)) = "critical" ↔ f < 49 ∨ 51 < f))) ∧
    deriveStatus none = "stable" ∧
    deriveStatus (some none) = "stable" ∧
    deriveStatus (some (some 0)) = "stable" ∧
    (∀ h : GridHtml,
      (extractGrid h).status = deriveStatus (extractGrid h).frequency ∧
      ((extractGrid h).status = "stable" ∨ (extractGrid h).status = "stressed" ∨
        (extractGrid h).status = "critical")) := by
  refine ⟨?_, rfl, rfl, rfl, fun h => ⟨rfl, deriveStatus_mem _⟩⟩
  intro f hf
  rw [deriveStatus_of_ne_zero f hf]
  by_cases h1 : 49.5 ≤ f ∧ f ≤ 50.5
  · rw [if_pos h1]
    refine ⟨by simp [h1], ?_, ?_⟩
    · constructor
      · intro hc; exact absurd hc (by decide)
      · intro hc; exfalso
        rcases hc with ⟨a, b⟩ | ⟨a, b⟩ <;> linarith [h1.1, h1.2]
    · constructor
      · intro hc; exact absurd hc (by decide)
      · intro hc; exfalso
        rcases hc with a | a <;> linarith [h1.1, h1.2]
  · rw [if_neg h1]
    by_cases h2 : 49 ≤ f ∧ f ≤ 51
    · rw [if_pos h2]
      push_neg at h1
      refine ⟨?_, ?_, ?_⟩
      · constructor
        · intro hc; exact absurd hc (by decide)
        · intro hc; exfalso; linarith [h1 hc.1, hc.2]
      · constructor
        · intro _
          rcases le_or_lt 49.5 f with hge | hlt
          · exact Or.inr ⟨h1 hge, h2.2⟩
          · exact Or.inl ⟨h2.1, hlt⟩
        · intro _; rfl
      · constructor
        · intro hc; exact absurd hc (by decide)
        · intro hc; exfalso
          rcases hc with a | a <;> linarith [h2.1, h2.2]
    · rw [if_neg h2]
      push_neg at h1 h2
      refine ⟨?_, ?_, ?_⟩
      · constructor
        · intro hc; exact absurd hc (by decide)
        · intro hc; exfalso; linarith [h1 hc.1, hc.2]
      · constructor
        · intro hc; exact absurd hc (by decide)
        · intro hc; exfalso
          rcases hc with ⟨a, b⟩ | ⟨a, b⟩
          · linarith [h2 a]
          · linarith [h2 (by linarith : (49 : ℚ) ≤ f)]
      · constructor
        · intro _
          rcases lt_or_le f 49 with hl | hg
          · exact Or.inl hl
          · exact Or.inr (h2 hg)
        · intro _; rfl

/-- Witness for C1: frequency 50.18 is classified `stable`. -/
theorem c1_witness :
    deriveStatus (some (some ((5018 : ℚ) / 100))) = "stable" :=
  ((c1_status_amended.1 ((5018 : ℚ) / 100) (by norm_num)).1).mpr (by norm_num)

/-! ## C2 -/

/-- C2 fails as stated: a fetch failure is a handled outcome whose
envelope carries `success:false`, yet its HTTP status is 500 (produced by
the catch handler), not 200 — and no persistence error is involved
(the insert outcome is `true` here). -/
theorem c2_counterexample :
    (handleGrid false ⟨none, none, none, none, [], none, none⟩ true).1.status
        = 500 ∧
    (handleGrid false ⟨none, none, none, none, [], none, none⟩ true).1.success
        = false ∧
    (500 : Nat) ≠ 200 := by
  exact ⟨rfl, rfl, by decide⟩

/-- C2 amended: each pipeline invocation responds 200 exactly on the
fully successful path (`success:true`); every caught error — fetch
failure included — yields HTTP 500 with a `success:false` envelope.  On
the metrics pipeline the insert outcome participates (an insert error is
re-thrown into the catch handler); on the news pipeline per-item insert
failures are swallowed, so its response depends only on the fetch. -/
theorem c2_http_amended :
    ∀ (fetchOk insertOk : Bool) (g : GridHtml) (hn : NewsHtml)
      (ins : Nat → Bool),
      ((handleGrid fetchOk g insertOk).1.status = 200 ↔
        fetchOk = true ∧ insertOk = true) ∧
      ((handleGrid fetchOk g insertOk).1.status = 500 ↔
        ¬(fetchOk = true ∧ insertOk = true)) ∧
      ((handleGrid fetchOk g insertOk).1.success = true ↔
        fetchOk = true ∧ insertOk = true) ∧
      ((handleNews fetchOk hn ins).1.status = 200 ↔ fetchOk = true) ∧
      ((handleNews fetchOk hn ins).1.status = 500 ↔ fetchOk = false) ∧
      ((handleNews fetchOk hn ins).1.success = true ↔ fetchOk = true) := by
  intro fetchOk insertOk g hn ins
  cases fetchOk <;> cases insertOk <;> simp [handleGrid, handleNews]

/-! ## C4 -/

/-- C4: an extracted value of exactly 0 is falsy, exactly like `null`, so
the status-derivation branch is skipped (status stays `stable`, not
`critical`) and every subsequent fallback-strategy guard treats a parsed
0 the same as an absent value: the tier-3 strategies overwrite a 0 just
as they overwrite `null`. -/
theorem c4_zero_truthiness :
    jsFalsy (some (some (0 : ℚ))) = true ∧
    jsFalsy (none : JsVal) = true ∧
    jsFalsy (some (some (0 : ℚ))) = jsFalsy (none : JsVal) ∧
    deriveStatus (some (some (0 : ℚ))) = "stable" ∧
    (∀ h : GridHtml, (extractGrid h).frequency = some (some (0 : ℚ)) →
      (extractGrid h).status = "stable") ∧
    (∀ (h : GridHtml) (c : String),
      (h.genMatch = some c →
        tier3Gen h (some (some (0 : ℚ))) = some (parseNumToken c) ∧
        tier3Gen h none = some (parseNumToken c)) ∧
      (h.freqMatch = some c →
        tier3Freq h (some (some (0 : ℚ))) = some (parseFloatQ c) ∧
        tier3Freq h none = some (parseFloatQ c))) := by
  refine ⟨rfl, rfl, rfl, rfl, ?_, ?_⟩
  · intro h hf
    have hs : (extractGrid h).status = deriveStatus (extractGrid h).frequency :=
      rfl
    rw [hs, hf]
    rfl
  · intro h c
    constructor
    · intro hg
      constructor <;> simp [tier3Gen, jsFalsy, jsTruthy, hg]
    · intro hf
      constructor <;> simp [tier3Freq, jsFalsy, jsTruthy, hf]

/-- Witness for C4: a document whose only frequency evidence is the token
`"0.0"` yields frequency 0 and status `stable`, and a concrete tier-3
generation match overwrites a parsed 0. -/
theorem c4_witness :
    (extractGrid ⟨none, none, none, some ("0.0"), [], none, none⟩).status
        = "stable" ∧
    tier3Gen ⟨none, none, some ("123"), none, [], none, none⟩
        (some (some (0 : ℚ))) = some (parseNumToken ("123")) :=
  ⟨c4_zero_truthiness.2.2.2.2.1 ⟨none, none, none, some ("0.0"), [], none, none⟩
      (by decide),
   ((c4_zero_truthiness.2.2.2.2.2
      ⟨none, none, some ("123"), none, [], none, none⟩ ("123")).1 rfl).1⟩

/-! ## C5 -/

/-- C5: on the news pipeline, per-item insert failures are swallowed: the
response is literally the same whatever the insert outcomes (so it cannot
distinguish partial persistence failure from full success, and reports
`success:true` with HTTP 200), while each item whose own insert succeeded
is still persisted regardless of the other items' failures. -/
theorem c5_partial_persist :
    ∀ (h : NewsHtml) (insertOk : Nat → Bool),
      (handleNews true h insertOk).1.success = true ∧
      (handleNews true h insertOk).1.status = 200 ∧
      (handleNews true h insertOk).1 = (handleNews true h (fun _ => true)).1 ∧
      (handleNews true h insertOk).2 =
        ((itemsToInsert h).enum.filter (fun p => insertOk p.1)).map Prod.snd :=
  fun _ _ => ⟨rfl, rfl, rfl, rfl⟩

/-! ## C6 -/

/-- C6: when both extraction tiers yield zero items, the pipeline emits
exactly one synthetic placeholder — titled "NERC Updates Available", of
type `info`, with null `published_at` — and the invocation completes as a
success (HTTP 200, `success:true`) with that single item in the
response. -/
theorem c6_placeholder :
    ∀ h : NewsHtml, extractedItems h = [] →
      newsItemsOf h = [placeholderItem] ∧
      placeholderItem.title = "NERC Updates Available" ∧
      placeholderItem.type = "info" ∧
      placeholderItem.published_at = none ∧
      ∀ ins : Nat → Bool,
        (handleNews true h ins).1.success = true ∧
        (handleNews true h ins).1.status = 200 ∧
        (handleNews true h ins).1.items = [placeholderItem] := by
  intro h he
  have hn : newsItemsOf h = [placeholderItem] := by
    simp [newsItemsOf, he]
  refine ⟨hn, rfl, rfl, rfl, ?_⟩
  intro ins
  refine ⟨rfl, rfl, ?_⟩
  show itemsToInsert h = [placeholderItem]
  rw [itemsToInsert, hn]
  rfl

/-- Witness for C6: the empty document (no article blocks, no fallback
matches) produces exactly the placeholder and a success response. -/
theorem c6_witness :
    newsItemsOf ⟨[], []⟩ = [placeholderItem] ∧
    (handleNews true ⟨[], []⟩ (fun _ => false)).1.success = true ∧
    (handleNews true ⟨[], []⟩ (fun _ => false)).1.items = [placeholderItem] :=
  ⟨(c6_placeholder ⟨[], []⟩ rfl).1,
   ((c6_placeholder ⟨[], []⟩ rfl).2.2.2.2 (fun _ => false)).1,
   ((c6_placeholder ⟨[], []⟩ rfl).2.2.2.2 (fun _ => false)).2.2⟩

/-! ## C7 -/

/-- A true `jsGt` exposes an actual (non-NaN) value above the bound. -/
theorem jsGt_true {x : Option ℚ} {c : ℚ} (h : jsGt x c = true) :
    ∃ v, x = some v ∧ c < v := by
  cases x with
  | none => simp [jsGt] at h
  | some v => exact ⟨v, rfl, by simpa [jsGt] using h⟩

/-- The break-on-first-hit loop equals "first list element passing the
band test". -/
theorem scanMw_eq_find (l : List String) :
    scanMw l = (l.find? mwBand).bind (fun t => mwValue t) := by
  induction l with
  | nil => rfl
  | cons t rest ih =>
    by_cases hb : mwBand t
    · simp [scanMw, List.find?_cons_of_pos, hb]
    · simp [scanMw, List.find?_cons_of_neg, hb, ih]

/-- C7: when every labelled strategy missed, the generation is the parsed
value of the *first* `<number> MW` occurrence whose value lies in the
band (2000, 10000) — occurrences outside the band are skipped — and the
frequency is the parsed capture of the first `<decimal> Hz` occurrence,
unconditionally. -/
theorem c7_mw_scan :
    ∀ h : GridHtml, h.gridCardMatch = none → h.altMatch = none →
      h.genMatch = none → h.freqMatch = none →
      (extractGrid h).generation_mw =
        (h.mwMatches.find? mwBand).map (fun t => mwValue t) ∧
      (extractGrid h).frequency =
        h.hzMatch.map (fun c => parseFloatQ c) := by
  intro h h1 h2 h3 h4
  unfold extractGrid
  simp only [tier1G, h1, tier2G, h2, tier3Gen, h3, tier3Freq, h4, tier4Gen,
    tier4Freq, jsFalsy, jsTruthy, Bool.not_false, Bool.or_self, if_true,
    scanMw_eq_find]
  constructor
  · cases hfind : h.mwMatches.find? mwBand with
    | none => simp
    | some t =>
      have hb := List.find?_some hfind
      have h2000 := (Bool.and_eq_true _ _).mp hb
      obtain ⟨v, hv, _⟩ := jsGt_true h2000.1
      simp [hv]
  · cases hz : h.hzMatch with
    | none => rfl
    | some c => rfl

/-- Witness for C7: `150 MW` is skipped (below the band) and `4,876.45MW`
accepted; the first Hz capture `50.18` is taken as-is. -/
theorem c7_witness :
    (extractGrid ⟨none, none, none, none,
        ["150 MW", "4,876.45MW", "5000MW"], some ("50.18"), none⟩).generation_mw
      = some (some (mkRat 487645 100)) ∧
    (extractGrid ⟨none, none, none, none,
        ["150 MW", "4,876.45MW", "5000MW"], some ("50.18"), none⟩).frequency
      = some (some (mkRat 5018 100)) := by
  have h := c7_mw_scan ⟨none, none, none, none,
    ["150 MW", "4,876.45MW", "5000MW"], some ("50.18"), none⟩ rfl rfl rfl rfl
  exact ⟨h.1.trans (by decide), h.2.trans (by decide)⟩

/-! ## C10 -/

/-- One primary-tier step grows the list by at most one record. -/
theorem tier1Step_length (items : List NewsRecord) (a : Article) :
    (tier1Step items a).length ≤ items.length + 1 := by
  unfold tier1Step
  rcases a.titleMatch with _ | raw
  · simp
  · dsimp only
    split_ifs <;> simp

/-- The primary-tier fold grows the accumulator by at most the number of
processed blocks. -/
theorem foldl_tier1_length (arts : List Article) (acc : List NewsRecord) :
    (arts.foldl tier1Step acc).length ≤ acc.length + arts.length := by
  induction arts generalizing acc with
  | nil => simp
  | cons a rest ih =>
    calc (List.foldl tier1Step acc (a :: rest)).length
        = (rest.foldl tier1Step (tier1Step acc a)).length := rfl
      _ ≤ (tier1Step acc a).length + rest.length := ih _
      _ ≤ acc.length + (a :: rest).length := by
          have := tier1Step_length acc a
          simp only [List.length_cons]
          omega

/-- The fallback-tier fold never grows the list past ten records. -/
theorem foldl_tier2_le10 (ts : List String) :
    ∀ acc : List NewsRecord, acc.length ≤ 10 →
      (ts.foldl tier2Step acc).length ≤ 10 := by
  induction ts with
  | nil => exact fun _ h => h
  | cons t rest ih =>
    intro acc h
    apply ih
    unfold tier2Step
    dsimp only
    split_ifs with hlt hacc
    · simp only [List.length_append, List.length_cons, List.length_nil]
      omega
    · exact h
    · exact h

/-- C10: each tier scan gathers at most 10 candidates, the persist step
takes exactly the first 5 in run order (so at most 5 rows, whatever the
insert outcomes), and the metrics pipeline persists exactly one row on a
successful invocation and zero on a failed one. -/
theorem c10_bounds :
    (∀ h : NewsHtml,
      (tier1Items h.articles).length ≤ 10 ∧
      (extractedItems h).length ≤ 10 ∧
      itemsToInsert h = (newsItemsOf h).take 5 ∧
      (itemsToInsert h).length ≤ 5 ∧
      ∀ (fetchOk : Bool) (ins : Nat → Bool),
        ((handleNews fetchOk h ins).2).length ≤ 5) ∧
    (∀ (fetchOk insertOk : Bool) (g : GridHtml),
      ((handleGrid fetchOk g insertOk).2 = 1 ↔
        (handleGrid fetchOk g insertOk).1.success = true) ∧
      ((handleGrid fetchOk g insertOk).2 = 0 ↔
        (handleGrid fetchOk g insertOk).1.success = false)) := by
  constructor
  · intro h
    have ht1 : (tier1Items h.articles).length ≤ 10 := by
      have hb := foldl_tier1_length (h.articles.take 10) []
      have hlen : (h.articles.take 10).length ≤ 10 := by
        rw [List.length_take]
        exact min_le_left _ _
      rw [tier1Items]
      simp only [List.length_nil] at hb
      omega
    have hex : (extractedItems h).length ≤ 10 := by
      unfold extractedItems
      dsimp only
      split_ifs with he
      · exact foldl_tier2_le10 _ _ (by omega)
      · exact ht1
    have hins : (itemsToInsert h).length ≤ 5 := by
      rw [itemsToInsert, List.length_take]
      exact min_le_left _ _
    refine ⟨ht1, hex, rfl, hins, ?_⟩
    intro fetchOk ins
    cases fetchOk with
    | false => simp [handleNews]
    | true =>
      show (((itemsToInsert h).enum.filter (fun p => ins p.1)).map
          Prod.snd).length ≤ 5
      rw [List.length_map]
      calc ((itemsToInsert h).enum.filter (fun p => ins p.1)).length
          ≤ (itemsToInsert h).enum.length := List.length_filter_le _ _
        _ = (itemsToInsert h).length := List.enum_length
        _ ≤ 5 := hins
  · intro fetchOk insertOk g
    cases fetchOk <;> cases insertOk <;> simp [handleGrid]

/-! ## C8 -/

/-- The shape every extracted (non-placeholder) record has: its title is
some normalized raw title truncated to 200 characters, and its
description embeds the first 100 characters of that same pre-truncation
normalized title. -/
def titleShape (it : NewsRecord) : Prop :=
  ∃ raw, it.title = jsSubstr (normalizeTitle raw) 200 ∧
    it.description = "Latest update from NERC regarding " ++
      jsSubstr (normalizeTitle raw) 100 ++ "..."

/-- Every record the primary-tier fold accumulates has `titleShape`. -/
theorem tier1_shape (arts : List Article) (acc : List NewsRecord)
    (hacc : ∀ it ∈ acc, titleShape it) :
    ∀ it ∈ arts.foldl tier1Step acc, titleShape it := by
  induction arts generalizing acc with
  | nil => exact hacc
  | cons a rest ih =>
    have hstep : ∀ it ∈ tier1Step acc a, titleShape it := by
      intro it hit
      unfold tier1Step at hit
      rcases hm : a.titleMatch with _ | raw
      · rw [hm] at hit
        exact hacc it hit
      · rw [hm] at hit
        dsimp only at hit
        split_ifs at hit with hA
        · rcases List.mem_append.mp hit with hmem | hone
          · exact hacc it hmem
          · rcases List.mem_singleton.mp hone with rfl
            exact ⟨raw, rfl, rfl⟩
        · exact hacc it hit
    exact ih (tier1Step acc a) hstep

/-- Every record the fallback-tier fold accumulates has `titleShape`. -/
theorem tier2_shape (ts : List String) (acc : List NewsRecord)
    (hacc : ∀ it ∈ acc, titleShape it) :
    ∀ it ∈ ts.foldl tier2Step acc, titleShape it := by
  induction ts generalizing acc with
  | nil => exact hacc
  | cons t rest ih =>
    have hstep : ∀ it ∈ tier2Step acc t, titleShape it := by
      intro it hit
      unfold tier2Step at hit
      dsimp only at hit
      split_ifs at hit with h10 hA
      · rcases List.mem_append.mp hit with hmem | hone
        · exact hacc it hmem
        · rcases List.mem_singleton.mp hone with rfl
          exact ⟨t, rfl, rfl⟩
      · exact hacc it hit
      · exact hacc it hit
    exact ih (tier2Step acc t) hstep

set_option maxRecDepth 100000 in
/-- Concrete run of the extractor on a document with a single article
whose raw title is 600 `'a'`s. -/
theorem extracted600_eq :
    extractedItems ⟨[⟨some (String.mk (List.replicate 600 'a')), none⟩], []⟩ =
      [mkNewsItem (normalizeTitle (String.mk (List.replicate 600 'a'))) none] := by
  decide

set_option maxRecDepth 100000 in
/-- The persisted title of the 600-`'a'` article is its first 200
characters. -/
theorem title600_eq :
    ((extractedItems ⟨[⟨some (String.mk (List.replicate 600 'a')), none⟩],
        []⟩).map (fun it => it.title) = [String.mk (List.replicate 200 'a')]) := by
  decide

set_option maxRecDepth 100000 in
/-- The synthesized description of the 600-`'a'` article embeds its first
100 characters. -/
theorem description600_eq :
    ((extractedItems ⟨[⟨some (String.mk (List.replicate 600 'a')), none⟩],
        []⟩).map (fun it => it.description) =
      ["Latest update from NERC regarding " ++
        String.mk (List.replicate 100 'a') ++ "..."]) := by
  decide

set_option maxRecDepth 100000 in
/-- C8: every accepted title is persisted as the normalized title
truncated to at most 200 characters, with a description embedding exactly
the first 100 characters of the pre-truncation normalized title; in
particular a 600-character title (600 `'a'`s) yields a persisted title of
exactly its first 200 characters. -/
theorem c8_truncation :
    (∀ h : NewsHtml, ∀ it ∈ extractedItems h, titleShape it) ∧
    ((extractedItems ⟨[⟨some (String.mk (List.replicate 600 'a')), none⟩],
        []⟩).map (fun it => it.title) = [String.mk (List.replicate 200 'a')]) ∧
    ((extractedItems ⟨[⟨some (String.mk (List.replicate 600 'a')), none⟩],
        []⟩).map (fun it => it.description) =
      ["Latest update from NERC regarding " ++
        String.mk (List.replicate 100 'a') ++ "..."]) ∧
    (String.mk (List.replicate 200 'a')).length = 200 := by
  refine ⟨?_, title600_eq, description600_eq, by decide⟩
  intro h it hit
  unfold extractedItems at hit
  dsimp only at hit
  split_ifs at hit with he
  · refine tier2_shape _ _ ?_ it hit
    exact tier1_shape _ _ (by intro it hit; simp at hit)
  · exact tier1_shape _ _ (by intro it hit; simp at hit) it hit

/-- Witness for C8: the record extracted from the 600-`'a'` title has the
truncation shape. -/
theorem c8_witness :
    titleShape (mkNewsItem
      (normalizeTitle (String.mk (List.replicate 600 'a'))) none) :=
  c8_truncation.1 ⟨[⟨some (String.mk (List.replicate 600 'a')), none⟩], []⟩
    (mkNewsItem (normalizeTitle (String.mk (List.replicate 600 'a'))) none)
    (by rw [extracted600_eq]; exact List.mem_singleton.mpr rfl)

/-! ## C3 -/

/-- Truncation is the identity on titles of at most `n` characters. -/
theorem jsSubstr_of_le (s : String) (n : Nat) (h : s.length ≤ n) :
    jsSubstr s n = s := by
  unfold jsSubstr
  have hd : s.data.length ≤ n := h
  rw [List.take_of_length_le hd]

/-- A passing acceptance test means the candidate title is not among the
already-stored titles. -/
theorem acceptTitle_not_mem {items : List NewsRecord} {t : String}
    (h : acceptTitle items t = true) :
    t ∉ items.map (fun it => it.title) := by
  intro hmem
  rcases List.mem_map.mp hmem with ⟨it, hit, hti⟩
  have hany : (items.any fun it => it.title == t) = false := by
    have hc := (Bool.and_eq_true _ _).mp h
    simpa using hc.2
  have hne := List.any_eq_false.mp hany it hit
  exact hne (by simp [hti])

/-- Primary-tier fold: when every candidate's normalized title fits in
200 characters, the stored titles stay pairwise distinct. -/
theorem tier1_nodup (arts : List Article) (acc : List NewsRecord)
    (hlen : ∀ a ∈ arts, ∀ raw, a.titleMatch = some raw →
      (normalizeTitle raw).length ≤ 200)
    (hacc : (acc.map (fun it => it.title)).Nodup) :
    ((arts.foldl tier1Step acc).map (fun it => it.title)).Nodup := by
  induction arts generalizing acc with
  | nil => exact hacc
  | cons a rest ih =>
    have hstep : ((tier1Step acc a).map (fun it => it.title)).Nodup := by
      unfold tier1Step
      rcases hm : a.titleMatch with _ | raw
      · exact hacc
      · dsimp only
        split_ifs with hA
        · have h200 : (normalizeTitle raw).length ≤ 200 :=
            hlen a (List.mem_cons_self _ _) raw hm
          have ht : (mkNewsItem (normalizeTitle raw) a.pubDate).title =
              normalizeTitle raw := jsSubstr_of_le _ _ h200
          rw [List.map_append, List.nodup_append]
          refine ⟨hacc, by simp, ?_⟩
          simp only [List.map_cons, List.map_nil, ht]
          rw [List.disjoint_singleton]
          exact acceptTitle_not_mem hA
        · exact hacc
    exact ih (tier1Step acc a)
      (fun a' ha' raw hr => hlen a' (List.mem_cons_of_mem _ ha') raw hr) hstep

/-- Fallback-tier fold: same distinctness invariant. -/
theorem tier2_nodup (ts : List String) (acc : List NewsRecord)
    (hlen : ∀ raw ∈ ts, (normalizeTitle raw).length ≤ 200)
    (hacc : (acc.map (fun it => it.title)).Nodup) :
    ((ts.foldl tier2Step acc).map (fun it => it.title)).Nodup := by
  induction ts generalizing acc with
  | nil => exact hacc
  | cons t rest ih =>
    have hstep : ((tier2Step acc t).map (fun it => it.title)).Nodup := by
      unfold tier2Step
      dsimp only
      split_ifs with h10 hA
      · have h200 : (normalizeTitle t).length ≤ 200 :=
          hlen t (List.mem_cons_self _ _)
        have ht : (mkNewsItem (normalizeTitle t) none).title =
            normalizeTitle t := jsSubstr_of_le _ _ h200
        rw [List.map_append, List.nodup_append]
        refine ⟨hacc, by simp, ?_⟩
        simp only [List.map_cons, List.map_nil, ht]
        rw [List.disjoint_singleton]
        exact acceptTitle_not_mem hA
      · exact hacc
      · exact hacc
    exact ih (tier2Step acc t)
      (fun raw hr => hlen raw (List.mem_cons_of_mem _ hr)) hstep

/-- C3 fails as stated: the dedup check compares the pre-truncation
normalized candidate against already-stored *truncated* titles, so two
identical 250-character titles both pass the check and are both
persisted with identical 200-character titles. -/
theorem c3_counterexample :
    ((itemsToInsert ⟨[⟨some (String.mk (List.replicate 250 'a')), none⟩,
        ⟨some (String.mk (List.replicate 250 'a')), none⟩], []⟩).map
      (fun it => it.title) =
      [String.mk (List.replicate 200 'a'), String.mk (List.replicate 200 'a')]) ∧
    ¬ ((itemsToInsert ⟨[⟨some (String.mk (List.replicate 250 'a')), none⟩,
        ⟨some (String.mk (List.replicate 250 'a')), none⟩], []⟩).map
      (fun it => it.title)).Nodup := by
  constructor
  · set_option maxRecDepth 100000 in decide
  · set_option maxRecDepth 100000 in decide

/-- C3 amended: the dedup check compares each normalized candidate title
against the already-stored (truncated-to-200) titles; therefore whenever
every candidate's normalized title is at most 200 characters long, the
persisted titles are pairwise distinct under exact match after whitespace
normalization — and a candidate whose normalized title already occurs
among the stored titles is skipped, so the first occurrence in document
order is the one retained.  (Identical normalized titles longer than 200
characters evade the check and are persisted in duplicate.) -/
theorem c3_dedup_amended :
    (∀ h : NewsHtml,
      (∀ a ∈ h.articles, ∀ raw, a.titleMatch = some raw →
        (normalizeTitle raw).length ≤ 200) →
      (∀ raw ∈ h.fallbackTitles, (normalizeTitle raw).length ≤ 200) →
      (((newsItemsOf h).map (fun it => it.title)).Nodup ∧
       ((itemsToInsert h).map (fun it => it.title)).Nodup)) ∧
    (∀ (items : List NewsRecord) (a : Article) (raw : String),
      a.titleMatch = some raw →
      (items.any fun it => it.title == normalizeTitle raw) = true →
      tier1Step items a = items) ∧
    (∀ (items : List NewsRecord) (raw : String),
      (items.any fun it => it.title == normalizeTitle raw) = true →
      tier2Step items raw = items) := by
  refine ⟨?_, ?_, ?_⟩
  · intro h h1 h2
    have hext : ((extractedItems h).map (fun it => it.title)).Nodup := by
      unfold extractedItems
      dsimp only
      split_ifs with he
      · refine tier2_nodup _ _ h2 ?_
        exact tier1_nodup _ _
          (fun a ha raw hr => h1 a (List.take_subset _ _ ha) raw hr)
          List.nodup_nil
      · exact tier1_nodup _ _
          (fun a ha raw hr => h1 a (List.take_subset _ _ ha) raw hr)
          List.nodup_nil
    have hnews : ((newsItemsOf h).map (fun it => it.title)).Nodup := by
      unfold newsItemsOf
      dsimp only
      split_ifs with he
      · rw [List.length_eq_zero.mp he]
        simp
      · exact hext
    refine ⟨hnews, ?_⟩
    rw [itemsToInsert, List.map_take]
    exact List.Nodup.sublist (List.take_sublist _ _) hnews
  · intro items a raw hm hany
    unfold tier1Step
    rw [hm]
    dsimp only
    rw [if_neg]
    simp [acceptTitle, hany]
  · intro items raw hany
    unfold tier2Step
    dsimp only
    split_ifs with h10 hA
    · exfalso
      simp [acceptTitle, hany] at hA
    · rfl
    · rfl

/-- Witness for C3: two candidates normalizing to the same short title
yield a single persisted record; the persisted titles are distinct. -/
theorem c3_witness :
    ((newsItemsOf ⟨[⟨some ("Hello brave old world"), none⟩,
        ⟨some (" Hello  brave old world "), none⟩], []⟩).map
      (fun it => it.title)).Nodup ∧
    ((itemsToInsert ⟨[⟨some ("Hello brave old world"), none⟩,
        ⟨some (" Hello  brave old world "), none⟩], []⟩).map
      (fun it => it.title)).Nodup :=
  c3_dedup_amended.1
    ⟨[⟨some ("Hello brave old world"), none⟩,
      ⟨some (" Hello  brave old world "), none⟩], []⟩
    (by
      intro a ha raw hr
      simp only [List.mem_cons, List.not_mem_nil, or_false] at ha
      rcases ha with rfl | rfl <;> (cases hr; decide))
    (by intro raw hr; cases hr)
